import Mathlib

/-!
Shallow embedding of the bolted-joint domain model in `src/classes.py`
(classes `Bolt`, `Washer`, `Member`, `BoltedJoint`), with the reference
dataset (bolt-size and material catalogs, loaded from JSON by
`resources.py`) passed in explicitly as read-only association lists.
Python floats are modelled as rationals; Python exceptions as `Except`.
-/

namespace DesignTools

/-- A Python dict keyed by strings, as an association list. -/
abbrev Dict (α : Type) : Type := List (String × α)

/-- Python dict lookup: `d[k]` succeeds with the first binding of `k`, else a KeyError. -/
def dictFind {α : Type} (d : Dict α) (k : String) : Option α :=
  (List.find? (fun p => p.1 == k) d).map (fun p => p.2)

/-- The Python exceptions raised by this module. -/
inductive PyError
  | keyError (key : String)
  | valueError (msg : String)
deriving DecidableEq

/-- One entry of `BOLT_SIZES[size]['tpi']`: tensile stress area and minor diameter area. -/
structure ThreadData where
  A_t : ℚ
  A_m : ℚ
deriving DecidableEq

/-- One entry of `BOLT_SIZES`: nominal diameter `d` and the per-tpi table. -/
structure SizeData where
  d : ℚ
  tpi : Dict ThreadData
deriving DecidableEq

/-- One entry of `MATERIALS`: elastic modulus `E`, yield strength, Poisson ratio. -/
structure MaterialData where
  E : ℚ
  S_y : ℚ
  v : ℚ
deriving DecidableEq

/-- The `Bolt` class of `classes.py`: size, threads per inch, material,
nominal diameter `d`, tensile stress area `A_t`, minor diameter area `A_m`. -/
structure Bolt where
  size : String
  tpi : Int
  material : String
  d : ℚ
  A_t : ℚ
  A_m : ℚ
deriving DecidableEq

/-- Decimal digits, most significant first; structural recursion on a fuel
bound so that the function reduces definitionally (`fuel ≥ n` suffices). -/
def natDigitsAux : Nat → Nat → List Nat
  | 0, n => [n]
  | fuel + 1, n => if n < 10 then [n] else natDigitsAux fuel (n / 10) ++ [n % 10]

/-- Decimal digits of a natural number, most significant first. -/
def natDigits (n : Nat) : List Nat := natDigitsAux n n

/-- A decimal digit rendered as its character. -/
def digitChar (d : Nat) : Char := Char.ofNat (48 + d)

/-- Python `str(...)` applied to an int: the decimal representation. -/
def pyStrInt (n : Int) : String :=
  match n with
  | .ofNat m => ⟨(natDigits m).map digitChar⟩
  | .negSucc m => ⟨'-' :: (natDigits (m + 1)).map digitChar⟩

/-- The value of a decimal digit character, if it is one. -/
def digitVal? (c : Char) : Option Nat :=
  if 48 ≤ c.toNat ∧ c.toNat ≤ 57 then some (c.toNat - 48) else none

/-- Parse a non-empty all-digit character list as a natural number. -/
def digitsToNat? (cs : List Char) : Option Nat :=
  match cs with
  | [] => none
  | _ =>
    cs.foldl
      (fun acc c =>
        match acc, digitVal? c with
        | some a, some d => some (a * 10 + d)
        | _, _ => none)
      (some 0)

/-- Python `int(...)` applied to a str (ValueError, modelled as `none`, when the
string is not an optionally-signed decimal numeral — e.g. `int("24.5")` fails). -/
def pyInt? (s : String) : Option Int :=
  match s.data with
  | '-' :: c :: cs => (digitsToNat? (c :: cs)).map (fun m => -(m : Int))
  | cs => (digitsToNat? cs).map (fun m => (m : Int))

/-- The `tpi` argument of `Bolt.__init__` may be an int or a str. -/
inductive TpiArg
  | int (n : Int)
  | str (s : String)

/-- Python `str(tpi)` for the two argument kinds. -/
def pyStr : TpiArg → String
  | .int n => pyStrInt n
  | .str s => s

/-- `Bolt.__init__`: `tpi_key = str(tpi)`; `BOLT_SIZES[size]` (KeyError on unknown
size); `if tpi_key not in BOLT_SIZES[size]['tpi']: raise ValueError(...)`; then the
fields are assigned, with `self.tpi = int(tpi_key)` (ValueError if unparseable) and
`d`, `A_t`, `A_m` copied from the catalog. The material is never checked. -/
def Bolt.init (sizeCat : Dict SizeData) (size : String) (tpi : TpiArg)
    (material : String) : Except PyError Bolt :=
  let tpi_key := pyStr tpi
  match dictFind sizeCat size with
  | none => .error (.keyError size)
  | some sd =>
    match dictFind sd.tpi tpi_key with
    | none => .error (.valueError ("TPI " ++ tpi_key ++ " not available for bolt size " ++ size))
    | some td =>
      match pyInt? tpi_key with
      | none => .error (.valueError tpi_key)
      | some n => .ok ⟨size, n, material, sd.d, td.A_t, td.A_m⟩

/-- The `Washer` class: inner diameter `di`, outer diameter (named `do` in the
source, a Lean keyword, hence `do_`), thickness `t`, material. -/
structure Washer where
  di : ℚ
  do_ : ℚ
  t : ℚ
  material : String
deriving DecidableEq

/-- `Washer.__init__`: assigns the four fields; no validation of any kind. -/
def Washer.init (di do_ t : ℚ) (material : String) : Washer :=
  ⟨di, do_, t, material⟩

/-- The `Member` class: unique `id`, thickness, material. -/
structure Member where
  id : Nat
  thickness : ℚ
  material : String
deriving DecidableEq

/-- `Member.__init__` with the class attribute `Member._id_counter` passed as
explicit state: the counter is incremented first, the new value becomes the id,
and the fields are assigned; no validation of any kind. -/
def Member.init (thickness : ℚ) (material : String) (counter : Nat) : Member × Nat :=
  (⟨counter + 1, thickness, material⟩, counter + 1)

/-- A sequence of `Member(...)` constructions threaded through the shared counter. -/
def constructMembers (reqs : List (ℚ × String)) (counter : Nat) : List Member × Nat :=
  match reqs with
  | [] => ([], counter)
  | r :: rest =>
    let p := Member.init r.1 r.2 counter
    let q := constructMembers rest p.2
    (p.1 :: q.1, q.2)

/-- The `BoltedJoint` class (the `axial_load`/`shear_load` attributes set by
`apply_loads` are not involved in any claim and are omitted). -/
structure BoltedJoint where
  bolt : Bolt
  members : List Member
  washers : List Washer
  clearance_hole : ℚ
  preload : ℚ
deriving DecidableEq

/-- `BoltedJoint.__init__`: assigns the fields, replacing a `None` washers
argument by `[]`; no validation of any kind. -/
def BoltedJoint.init (bolt : Bolt) (members : List Member) (clearance_hole : ℚ)
    (washers : Option (List Washer)) (preload : ℚ) : BoltedJoint :=
  ⟨bolt, members, washers.getD [], clearance_hole, preload⟩

/-- `BoltedJoint.grip_length`: sum of member thicknesses, plus each washer's
thickness when the washer list is truthy (non-empty). -/
def BoltedJoint.grip_length (j : BoltedJoint) : ℚ :=
  let total_t := (j.members.map Member.thickness).sum
  if j.washers.isEmpty then total_t
  else total_t + (j.washers.map Washer.t).sum

/-- `BoltedJoint.apply_preload`: unconditionally sets `self.preload`. -/
def BoltedJoint.apply_preload (j : BoltedJoint) (preload : ℚ) : BoltedJoint :=
  { j with preload := preload }

/-- `BoltedJoint.bolt_stiffness`: looks up `MATERIALS[self.bolt.material]['E']`
(KeyError on unknown material), then returns `A_t * E / grip_length` when the
grip length is positive, and `0` otherwise. No unit conversion is applied. -/
def BoltedJoint.bolt_stiffness (mats : Dict MaterialData) (j : BoltedJoint) :
    Except PyError ℚ :=
  let grip_length := j.grip_length
  match dictFind mats j.bolt.material with
  | none => .error (.keyError j.bolt.material)
  | some m =>
    let bolt_E := m.E
    let bolt_area := j.bolt.A_t
    if grip_length > 0 then .ok (bolt_area * bolt_E / grip_length)
    else .ok 0

/-- Modelled from the spec: the fixed conversion factor 1 in² = 6.4516e-4 m²
that the spec requires in boltStiffness but that is absent from the code. -/
def IN2_TO_M2 : ℚ := 64516 / 100000000

/-- Modelled from the spec: the fixed conversion factor 1 in = 2.54e-2 m
that the spec requires in boltStiffness but that is absent from the code. -/
def IN_TO_M : ℚ := 254 / 10000

/-- Modelled from the spec: the stiffness the spec prescribes,
`(E_Pa * A_t_in2 * 6.4516e-4) / (L_in * 2.54e-2)`. -/
def specBoltStiffness (E A_t L : ℚ) : ℚ :=
  (E * (A_t * IN2_TO_M2)) / (L * IN_TO_M)

/-! Concrete sample data for witnesses and counterexamples. The JSON catalogs
are external reference data supplied to the module; the values below are a
representative instantiation (size "#10": nominal diameter 0.19 in, at 24 tpi
tensile stress area 0.0175 in² and minor diameter area 0.0145 in²; material
"A-286 Alloy": elastic modulus 200.6 GPa). -/

/-- Sample `BOLT_SIZES` catalog. -/
def sampleSizeCatalog : Dict SizeData :=
  [("#10", ⟨19/100, [("24", ⟨175/10000, 145/10000⟩), ("32", ⟨2/100, 18/1000⟩)]⟩)]

/-- Sample `MATERIALS` catalog. -/
def sampleMaterials : Dict MaterialData :=
  [("A-286 Alloy", ⟨200600000000, 275000000, 31/100⟩)]

/-- A sample bolt: size "#10", 24 tpi, A-286 Alloy. -/
def sampleBolt : Bolt := ⟨"#10", 24, "A-286 Alloy", 19/100, 175/10000, 145/10000⟩

/-- The two members of the spec's concrete scenario: thicknesses 0.25 and 0.375 in. -/
def scenarioMembers : List Member :=
  [⟨1, 1/4, "A-286 Alloy"⟩, ⟨2, 3/8, "A-286 Alloy"⟩]

/-- The spec's concrete scenario joint, with a prior valid preload of 5. -/
def sampleJoint : BoltedJoint :=
  BoltedJoint.init sampleBolt scenarioMembers (281/1000) none 5

/-- A degenerate joint with an empty member and washer stack (constructible,
since `BoltedJoint.__init__` does not validate). -/
def degenerateJoint : BoltedJoint :=
  BoltedJoint.init sampleBolt [] (281/1000) none 0

/-- The material catalog of the scenario, with the elastic modulus a parameter. -/
def scenarioMats (E : ℚ) : Dict MaterialData :=
  [("A-286 Alloy", ⟨E, 275000000, 31/100⟩)]

/-- The scenario joint with the bolt's tensile stress area a parameter. -/
def scenarioJoint (A_t : ℚ) : BoltedJoint :=
  BoltedJoint.init ⟨"#10", 24, "A-286 Alloy", 19/100, A_t, 145/10000⟩
    scenarioMembers (281/1000) none 0

/-- Helper: grip length is always the member-thickness sum plus the washer-thickness
sum (the truthiness guard in the source only skips adding an empty sum). -/
theorem grip_length_eq (j : BoltedJoint) :
    j.grip_length = (j.members.map Member.thickness).sum + (j.washers.map Washer.t).sum := by
  unfold BoltedJoint.grip_length
  cases h : j.washers <;> simp [h]

/-- C8: `gripLength()` equals the sum of member thicknesses plus washer
thicknesses (in particular 0.625 for members 0.25 and 0.375 with no washers),
and adding a positive-thickness member, all else equal, strictly increases it. -/
theorem grip_length_spec (j : BoltedJoint) (m : Member) (hm : 0 < m.thickness) :
    j.grip_length = (j.members.map Member.thickness).sum + (j.washers.map Washer.t).sum ∧
    j.grip_length <
      (BoltedJoint.mk j.bolt (m :: j.members) j.washers j.clearance_hole j.preload).grip_length := by
  refine ⟨grip_length_eq j, ?_⟩
  have h1 := grip_length_eq j
  have h2 := grip_length_eq
    (BoltedJoint.mk j.bolt (m :: j.members) j.washers j.clearance_hole j.preload)
  simp only [List.map_cons, List.sum_cons] at h2
  rw [h1, h2]
  linarith

/-- C8 witness: on the spec's concrete scenario the grip length is 0.625, and
prepending a member of thickness 0.25 strictly increases it. -/
theorem grip_length_spec_witness :
    sampleJoint.grip_length = 5/8 ∧
    (sampleJoint.grip_length =
        (sampleJoint.members.map Member.thickness).sum +
          (sampleJoint.washers.map Washer.t).sum ∧
      sampleJoint.grip_length <
        (BoltedJoint.mk sampleJoint.bolt ((⟨3, 1/4, "steel"⟩ : Member) :: sampleJoint.members)
          sampleJoint.washers sampleJoint.clearance_hole sampleJoint.preload).grip_length) :=
  ⟨by norm_num [sampleJoint, BoltedJoint.init, scenarioMembers, BoltedJoint.grip_length],
   grip_length_spec sampleJoint ⟨3, 1/4, "steel"⟩ (by norm_num)⟩

/-- Helper: constructing members from counter `c` yields ids `c+1, c+2, ...`
and leaves the counter advanced by the number of constructions. -/
theorem constructMembers_ids (reqs : List (ℚ × String)) (c : Nat) :
    (constructMembers reqs c).1.map Member.id = List.range' (c + 1) reqs.length ∧
    (constructMembers reqs c).2 = c + reqs.length := by
  induction reqs generalizing c with
  | nil => simp [constructMembers]
  | cons r rest ih =>
    have h := ih (c + 1)
    simp [constructMembers, Member.init, List.range'_succ, h.1, h.2]
    omega

/-- C9: every construction succeeds and receives the next counter value: starting
from the initial counter 0 the ids are exactly 1, 2, ..., n, hence strictly
increasing in construction order and pairwise distinct (never reused). -/
theorem member_id_counter_spec (reqs : List (ℚ × String)) :
    (constructMembers reqs 0).1.map Member.id = List.range' 1 reqs.length ∧
    ((constructMembers reqs 0).1.map Member.id).Pairwise (· < ·) ∧
    ((constructMembers reqs 0).1.map Member.id).Nodup := by
  have h := (constructMembers_ids reqs 0).1
  refine ⟨h, ?_, ?_⟩
  · rw [h]; exact List.pairwise_lt_range' 1 reqs.length
  · rw [h]; exact List.nodup_range' 1 reqs.length

/-- C1 counterexample: constructing a Joint with an empty member list, a
clearance hole (0) not exceeding the fastener's nominal diameter, and a negative
preload succeeds and stores those values — no ValidationError is raised. -/
theorem joint_init_no_validation_cex :
    ((0:ℚ) ≤ sampleBolt.d) ∧ ((-5:ℚ) < 0) ∧
    BoltedJoint.init sampleBolt [] 0 none (-5) = ⟨sampleBolt, [], [], 0, -5⟩ :=
  ⟨by norm_num [sampleBolt], by norm_num, rfl⟩

/-- C1 (amended): Joint construction never fails; for every input — including an
empty member list, a clearance hole not exceeding the nominal diameter, and a
negative preload — it succeeds and stores the supplied values, with a `None`
washers argument stored as the empty list. -/
theorem joint_init_stores_inputs (b : Bolt) (ms : List Member) (ch : ℚ)
    (ws : Option (List Washer)) (p : ℚ) :
    (BoltedJoint.init b ms ch ws p).bolt = b ∧
    (BoltedJoint.init b ms ch ws p).members = ms ∧
    (BoltedJoint.init b ms ch ws p).washers = ws.getD [] ∧
    (BoltedJoint.init b ms ch ws p).clearance_hole = ch ∧
    (BoltedJoint.init b ms ch ws p).preload = p :=
  ⟨rfl, rfl, rfl, rfl, rfl⟩

/-- C3 counterexample: on a joint whose prior valid preload is 5,
`apply_preload(-1)` does not fail and sets `preload` to -1. -/
theorem apply_preload_negative_cex :
    sampleJoint.preload = 5 ∧ (sampleJoint.apply_preload (-1)).preload = -1 ∧
    (sampleJoint.apply_preload (-1)).preload ≠ sampleJoint.preload :=
  ⟨rfl, rfl, by norm_num [sampleJoint, BoltedJoint.init, BoltedJoint.apply_preload]⟩

/-- C3 (amended): `apply_preload(value)` always succeeds and sets `preload` to
`value`, negative values included, leaving every other field unchanged; no
validation occurs. -/
theorem apply_preload_sets (j : BoltedJoint) (p : ℚ) :
    (j.apply_preload p).preload = p ∧
    (j.apply_preload p).bolt = j.bolt ∧
    (j.apply_preload p).members = j.members ∧
    (j.apply_preload p).washers = j.washers ∧
    (j.apply_preload p).clearance_hole = j.clearance_hole :=
  ⟨rfl, rfl, rfl, rfl, rfl⟩

/-- C4: evaluation at the failing input of the repository's own test suite
(`Member(-0.1, 'A-286 Alloy')` in `test_refactored_code.py`, which expects a
ValueError): construction succeeds and stores the non-positive thickness -0.1. -/
theorem member_negative_thickness_accepted :
    ((-1/10 : ℚ) ≤ 0) ∧
    (Member.init (-1/10) "A-286 Alloy" 0).1 = ⟨1, -1/10, "A-286 Alloy"⟩ :=
  ⟨by norm_num, rfl⟩

/-- C5 counterexample: with a material absent from the material catalog,
Bolt construction nevertheless succeeds (the material is never looked up),
refuting that construction fails exactly when size, tpi, or material is bad. -/
theorem bolt_unknown_material_accepted_cex :
    dictFind sampleMaterials "unobtainium" = none ∧
    Bolt.init sampleSizeCatalog "#10" (.str "24") "unobtainium" =
      .ok ⟨"#10", 24, "unobtainium", 19/100, 175/10000, 145/10000⟩ :=
  ⟨rfl, rfl⟩

/-- C5 (amended): Bolt construction fails with a KeyError when the size is
unknown and with a ValueError when the thread pitch is not offered for that
size; the material is not validated; on success (any material accepted) the
`d`, `A_t`, `A_m` fields exactly equal the catalog values for that size and
thread pitch, and `tpi` is the parsed integer key. -/
theorem bolt_init_spec (cat : Dict SizeData) (size : String) (tpi : TpiArg)
    (material : String) :
    (dictFind cat size = none → Bolt.init cat size tpi material = .error (.keyError size)) ∧
    (∀ sd, dictFind cat size = some sd → dictFind sd.tpi (pyStr tpi) = none →
      Bolt.init cat size tpi material =
        .error (.valueError ("TPI " ++ pyStr tpi ++ " not available for bolt size " ++ size))) ∧
    (∀ sd td n, dictFind cat size = some sd → dictFind sd.tpi (pyStr tpi) = some td →
      pyInt? (pyStr tpi) = some n →
      Bolt.init cat size tpi material = .ok ⟨size, n, material, sd.d, td.A_t, td.A_m⟩) := by
  refine ⟨fun h => ?_, fun sd h1 h2 => ?_, fun sd td n h1 h2 h3 => ?_⟩
  · simp [Bolt.init, h]
  · simp [Bolt.init, h1, h2]
  · simp [Bolt.init, h1, h2, h3]

/-- C5 witness: the amended contract applied to the sample catalog at
size "#10", tpi 24, material "A-286 Alloy". -/
theorem bolt_init_spec_witness :
    Bolt.init sampleSizeCatalog "#10" (.int 24) "A-286 Alloy" =
      .ok ⟨"#10", 24, "A-286 Alloy", 19/100, 175/10000, 145/10000⟩ :=
  (bolt_init_spec sampleSizeCatalog "#10" (.int 24) "A-286 Alloy").2.2
    ⟨19/100, [("24", ⟨175/10000, 145/10000⟩), ("32", ⟨2/100, 18/1000⟩)]⟩
    ⟨175/10000, 145/10000⟩ 24 rfl rfl rfl

/-- C6 counterexample: a washer with inner diameter 2 ≥ outer diameter 1 and
thickness -1 ≤ 0 is constructed without any error. -/
theorem washer_no_validation_cex :
    ((1:ℚ) ≤ 2) ∧ ((-1:ℚ) ≤ 0) ∧
    Washer.init 2 1 (-1) "carbon steel" = ⟨2, 1, -1, "carbon steel"⟩ :=
  ⟨by norm_num, by norm_num, rfl⟩

/-- C6 (amended): Washer construction never fails; for every input, violating
dimensions included, it succeeds and stores the supplied values. -/
theorem washer_init_stores_inputs (di do_ t : ℚ) (m : String) :
    (Washer.init di do_ t m).di = di ∧ (Washer.init di do_ t m).do_ = do_ ∧
    (Washer.init di do_ t m).t = t ∧ (Washer.init di do_ t m).material = m :=
  ⟨rfl, rfl, rfl, rfl⟩

/-- C7 counterexample: a joint with zero grip length does not fail in
`bolt_stiffness`; the method returns 0. -/
theorem zero_grip_stiffness_cex :
    degenerateJoint.grip_length = 0 ∧
    degenerateJoint.bolt_stiffness sampleMaterials = .ok 0 :=
  ⟨rfl, rfl⟩

/-- C7 (amended): for every joint whose grip length is 0 and whose fastener
material is present in the catalog, `bolt_stiffness` returns 0 instead of
raising a domain error. -/
theorem bolt_stiffness_zero_grip (j : BoltedJoint) (mats : Dict MaterialData)
    (m : MaterialData) (hm : dictFind mats j.bolt.material = some m)
    (h0 : j.grip_length = 0) :
    j.bolt_stiffness mats = .ok 0 := by
  simp [BoltedJoint.bolt_stiffness, hm, h0]

/-- C7 witness: the amended statement applied to the degenerate joint. -/
theorem bolt_stiffness_zero_grip_witness :
    degenerateJoint.bolt_stiffness sampleMaterials = .ok 0 :=
  bolt_stiffness_zero_grip degenerateJoint sampleMaterials
    ⟨200600000000, 275000000, 31/100⟩ rfl rfl

/-- C2: on the spec's concrete scenario (size "#10", tpi 24, A-286 Alloy,
members 0.25 and 0.375 in) the code returns `A_t * E / 0.625` with no unit
conversion, which differs from the specified
`(E * A_t * 6.4516e-4) / (0.625 * 2.54e-2)` for every positive E and A_t. -/
theorem bolt_stiffness_placeholder (E A_t : ℚ) (hE : 0 < E) (hA : 0 < A_t) :
    (scenarioJoint A_t).bolt_stiffness (scenarioMats E) = .ok (A_t * E / (5/8)) ∧
    A_t * E / (5/8) ≠ specBoltStiffness E A_t (5/8) := by
  constructor
  · simp [BoltedJoint.bolt_stiffness, scenarioJoint, scenarioMats, BoltedJoint.init,
      BoltedJoint.grip_length, scenarioMembers, dictFind]
    norm_num
  · unfold specBoltStiffness IN2_TO_M2 IN_TO_M
    intro h
    have hne : 0 < A_t * E := mul_pos hA hE
    field_simp at h
    nlinarith

/-- C2 witness: the divergence at the representative catalog values
E = 200.6e9 Pa and A_t = 0.0175 in². -/
theorem bolt_stiffness_placeholder_witness :
    (scenarioJoint (175/10000)).bolt_stiffness (scenarioMats 200600000000) =
      .ok ((175/10000) * 200600000000 / (5/8)) ∧
    (175/10000) * 200600000000 / (5/8) ≠
      specBoltStiffness 200600000000 (175/10000) (5/8) :=
  bolt_stiffness_placeholder 200600000000 (175/10000) (by norm_num) (by norm_num)

/-- C10: `Bolt.__init__` normalizes the tpi argument with `str(...)` before the
catalog lookup, so an integer tpi and its decimal-string form produce identical
results (hence identical size, tpi, material, d, A_t and A_m fields). -/
theorem bolt_init_int_str_agree (cat : Dict SizeData) (size : String) (n : Int)
    (material : String) :
    Bolt.init cat size (.int n) material = Bolt.init cat size (.str (pyStrInt n)) material :=
  rfl

end DesignTools
